import Mathlib

/-!
Shallow embedding of the MicroInvest projection and allocation engine:

* the investment-engine module (`generatePortfolioRecommendation` with its
  inline future-value-of-annuity projection and the risk-tolerance switch),
* `calculateRequiredMonthly` from the GoalTracker component,
* `generateDCAData` from the DCASimulator component.

JavaScript numbers are modelled as exact rationals.  `Math.round` agrees
with Mathlib's `round` (both compute `floor (x + 1/2)`).  The one place the
source can divide by zero — the unguarded annuity projection at a zero
monthly rate, which in JavaScript evaluates `0/0` to `NaN` — is modelled by
an `Option` result (`none` = no finite value).
-/

namespace MicroInvest

/-- The `Investment` record of the engine source. -/
structure Investment where
  symbol : String
  name : String
  allocation : ℚ
  expectedReturn : ℚ
  riskLevel : String
  description : String
deriving DecidableEq

/-- The `PortfolioData` record returned by `generatePortfolioRecommendation`. -/
structure PortfolioData where
  investments : List Investment
  totalExpectedReturn : ℚ
  riskScore : ℤ
  monthlyAmount : ℚ
  projectedValue : ℤ
  timeframe : String
deriving DecidableEq

/-- The `BudgetRiskData` input record.  `riskTolerance` and `timeHorizon`
are strings at runtime: the source switch has a `default` branch and the
time-multiplier lookup has a `|| 1` fallback. -/
structure BudgetRiskData where
  monthlyBudget : ℚ
  riskTolerance : String
  investmentGoal : String
  timeHorizon : String
deriving DecidableEq

/-- `INVESTMENT_OPTIONS[0]`. -/
def voo : Investment :=
  { symbol := "VOO"
    name := "Vanguard S&P 500 ETF"
    allocation := 0
    expectedReturn := 10.5
    riskLevel := "low"
    description := "Tracks the S&P 500 index, providing broad market exposure with low fees. Perfect for long-term growth with reduced volatility." }

/-- `INVESTMENT_OPTIONS[1]`. -/
def vti : Investment :=
  { symbol := "VTI"
    name := "Vanguard Total Stock Market ETF"
    allocation := 0
    expectedReturn := 10.8
    riskLevel := "medium"
    description := "Invests in the entire U.S. stock market, including small, mid, and large-cap stocks for comprehensive market exposure." }

/-- `INVESTMENT_OPTIONS[2]`. -/
def aapl : Investment :=
  { symbol := "AAPL"
    name := "Apple Inc."
    allocation := 0
    expectedReturn := 12.0
    riskLevel := "medium"
    description := "Blue-chip technology stock with strong fundamentals and consistent growth. A stable choice for growth-oriented portfolios." }

/-- `INVESTMENT_OPTIONS[3]`. -/
def msft : Investment :=
  { symbol := "MSFT"
    name := "Microsoft Corporation"
    allocation := 0
    expectedReturn := 11.5
    riskLevel := "medium"
    description := "Leading technology company with diversified revenue streams in cloud computing, productivity software, and gaming." }

/-- `INVESTMENT_OPTIONS[4]`. -/
def bnd : Investment :=
  { symbol := "BND"
    name := "Vanguard Total Bond Market ETF"
    allocation := 0
    expectedReturn := 4.2
    riskLevel := "low"
    description := "Provides exposure to the entire U.S. investment-grade bond market. Offers stability and income generation." }

/-- `INVESTMENT_OPTIONS[5]`. -/
def qqq : Investment :=
  { symbol := "QQQ"
    name := "Invesco QQQ ETF"
    allocation := 0
    expectedReturn := 13.2
    riskLevel := "high"
    description := "Tracks the Nasdaq-100 index, focusing on technology and growth companies. Higher potential returns with increased volatility." }

/-- The `INVESTMENT_OPTIONS` array. -/
def INVESTMENT_OPTIONS : List Investment := [voo, vti, aapl, msft, bnd, qqq]

/-- The `timeMultipliers` lookup of the engine (in years), including the
`|| 1` fallback for an unrecognized label. -/
def timeMultipliers (timeHorizon : String) : ℚ :=
  if timeHorizon = "3-months" then 0.25
  else if timeHorizon = "6-months" then 0.5
  else if timeHorizon = "1-year" then 1
  else if timeHorizon = "2-years" then 2
  else if timeHorizon = "5-years" then 5
  else 1

/-- `totalMonths = timeMultiplier * 12` of the engine, as the natural
number actually used as the exponent of the compounding factor. -/
def totalMonths (timeHorizon : String) : ℕ :=
  if timeHorizon = "3-months" then 3
  else if timeHorizon = "6-months" then 6
  else if timeHorizon = "1-year" then 12
  else if timeHorizon = "2-years" then 24
  else if timeHorizon = "5-years" then 60
  else 12

/-- `totalMonths` is exactly `timeMultipliers · 12` of the source. -/
theorem totalMonths_eq_timeMultipliers_mul (timeHorizon : String) :
    (totalMonths timeHorizon : ℚ) = timeMultipliers timeHorizon * 12 := by
  unfold totalMonths timeMultipliers
  split_ifs <;> norm_num

/-- The rate convention shared by all three source sites:
`monthlyReturn = annualReturnPercent / 100 / 12`. -/
def monthlyRate (annualReturnPercent : ℚ) : ℚ :=
  annualReturnPercent / 100 / 12

/-- The inline future-value-of-annuity expression of the engine
(`monthlyContribution * (Math.pow(1 + monthlyReturn, totalMonths) - 1) /
monthlyReturn`), as exact rational arithmetic.  The division is unguarded
in the source. -/
def fvAnnuityRaw (monthlyContribution annualReturnPercent : ℚ)
    (horizonMonths : ℕ) : ℚ :=
  monthlyContribution *
    ((1 + monthlyRate annualReturnPercent) ^ horizonMonths - 1) /
    monthlyRate annualReturnPercent

/-- The projection `projectFutureValue` as the source implements it: the
rounded annuity value, except that at a zero monthly rate the source
computes `0/0 = NaN` (no finite value), modelled as `none`. -/
def projectFutureValue (monthlyContribution annualReturnPercent : ℚ)
    (horizonMonths : ℕ) : Option ℤ :=
  if monthlyRate annualReturnPercent = 0 then none
  else some (round (fvAnnuityRaw monthlyContribution annualReturnPercent horizonMonths))

/-- The `switch (riskTolerance)` block of the engine: the selected
investments (with allocations overriding the option templates), the
`totalExpectedReturn` and the `riskScore`, including the `default`
branch. -/
def riskSwitch (riskTolerance : String) : List Investment × ℚ × ℤ :=
  if riskTolerance = "low" then
    ([{ voo with allocation := 60 },
      { bnd with allocation := 30 },
      { aapl with allocation := 10 }], 7.8, 2)
  else if riskTolerance = "medium" then
    ([{ voo with allocation := 50 },
      { aapl with allocation := 25 },
      { msft with allocation := 15 },
      { bnd with allocation := 10 }], 9.8, 4)
  else if riskTolerance = "high" then
    ([{ qqq with allocation := 40 },
      { vti with allocation := 30 },
      { aapl with allocation := 20 },
      { msft with allocation := 10 }], 12.1, 7)
  else
    ([{ voo with allocation := 100 }], 10.5, 3)

/-- `generatePortfolioRecommendation` from the engine source.  The
projected value is the inline annuity formula `fvAnnuityRaw` rounded; the
divisor `monthlyReturn` is nonzero on every branch of the switch (the four
possible returns are 7.8, 9.8, 12.1 and 10.5), so the rational division is
faithful to the floating-point run. -/
def generatePortfolioRecommendation (userData : BudgetRiskData) : PortfolioData :=
  let sel := riskSwitch userData.riskTolerance
  { investments := sel.1
    totalExpectedReturn := sel.2.1
    riskScore := sel.2.2
    monthlyAmount := userData.monthlyBudget
    projectedValue :=
      round (fvAnnuityRaw userData.monthlyBudget sel.2.1 (totalMonths userData.timeHorizon))
    timeframe := userData.timeHorizon }

/-- `calculateRequiredMonthly` from the GoalTracker component: the inverse
annuity (PMT) formula, with the zero-monthly-rate branch special-cased in
the source. -/
def calculateRequiredMonthly (targetAmount : ℚ) (months : ℕ)
    (annualReturn : ℚ) : ℚ :=
  let monthlyReturn := annualReturn / 100 / 12
  if monthlyReturn = 0 then targetAmount / months
  else targetAmount * monthlyReturn / ((1 + monthlyReturn) ^ months - 1)

/-- One point of the DCA chart series pushed by `generateDCAData`:
`{month, dca: Math.round(dcaValue), lumpSum: Math.round(lumpSumValue),
contributions: month * customMonthly}`. -/
structure DCAPoint where
  month : ℕ
  dca : ℤ
  lumpSum : ℤ
  contributions : ℚ
deriving DecidableEq, Inhabited

/-- The body of the `generateDCAData` loop: the full-precision state
`(dcaValue, lumpSumValue, data)` is advanced only when `month > 0`, and one
rounded chart point is appended per month. -/
def dcaStep (customMonthly monthlyReturn : ℚ)
    (st : ℚ × ℚ × List DCAPoint) (month : ℕ) : ℚ × ℚ × List DCAPoint :=
  let dcaValue := if 0 < month then (st.1 + customMonthly) * (1 + monthlyReturn) else st.1
  let lumpSumValue := if 0 < month then st.2.1 * (1 + monthlyReturn) else st.2.1
  (dcaValue, lumpSumValue,
    st.2.2 ++ [{ month := month
                 dca := round dcaValue
                 lumpSum := round lumpSumValue
                 contributions := (month : ℚ) * customMonthly }])

/-- `generateDCAData` from the DCASimulator component: a loop over
`month = 0 .. months` starting from `dcaValue = 0` and
`lumpSumValue = customMonthly * months`.  `monthlyReturn` is the monthly
rate captured from the enclosing component scope. -/
def generateDCAData (customMonthly monthlyReturn : ℚ) (months : ℕ) :
    List DCAPoint :=
  ((List.range (months + 1)).foldl (dcaStep customMonthly monthlyReturn)
    (0, customMonthly * months, [])).2.2

/-- Closed form of the `dcaValue` state variable after `month` iterations:
`dcaValue_0 = 0`, `dcaValue_m = (dcaValue_{m-1} + c) * (1 + r)`. -/
def dcaValueRec (customMonthly monthlyReturn : ℚ) : ℕ → ℚ
  | 0 => 0
  | m + 1 => (dcaValueRec customMonthly monthlyReturn m + customMonthly) * (1 + monthlyReturn)

/-- Closed form of the chart point pushed at a given month. -/
def dcaPoint (customMonthly monthlyReturn : ℚ) (months month : ℕ) : DCAPoint :=
  { month := month
    dca := round (dcaValueRec customMonthly monthlyReturn month)
    lumpSum := round (customMonthly * months * (1 + monthlyReturn) ^ month)
    contributions := (month : ℚ) * customMonthly }

/-! ### Helper lemmas -/

/-- `Math.round` and `round` both compute `floor (x + 1/2)`; rounding is
monotone. -/
theorem round_mono_rat {x y : ℚ} (h : x ≤ y) : round x ≤ round y := by
  rw [round_eq, round_eq]
  exact Int.floor_mono (by linarith)

/-- Evaluation rule for rounding a concrete rational. -/
theorem round_eq_of_bounds (x : ℚ) (z : ℤ) (h1 : (z : ℚ) ≤ x + 1 / 2)
    (h2 : x + 1 / 2 < (z : ℚ) + 1) : round x = z := by
  rw [round_eq]
  exact Int.floor_eq_iff.mpr ⟨h1, h2⟩

/-- The monthly rate of a positive annual percentage is positive. -/
theorem monthlyRate_pos {rate : ℚ} (hr : 0 < rate) : 0 < monthlyRate rate := by
  unfold monthlyRate
  positivity

/-- The unrounded annuity value is strictly increasing in the monthly
contribution, for a positive rate and at least one month. -/
theorem fvAnnuityRaw_lt_of_contribution_lt {rate c₁ c₂ : ℚ} {n : ℕ}
    (hr : 0 < rate) (hn : 1 ≤ n) (hc : c₁ < c₂) :
    fvAnnuityRaw c₁ rate n < fvAnnuityRaw c₂ rate n := by
  have hmr : 0 < monthlyRate rate := monthlyRate_pos hr
  have hA : 0 < (1 + monthlyRate rate) ^ n - 1 := by
    have := one_lt_pow₀ (by linarith : 1 < 1 + monthlyRate rate) (by omega : n ≠ 0)
    linarith
  unfold fvAnnuityRaw
  exact (div_lt_div_iff_of_pos_right hmr).mpr (mul_lt_mul_of_pos_right hc hA)

/-- The unrounded annuity value is strictly increasing in the horizon, for
a positive contribution and rate. -/
theorem fvAnnuityRaw_lt_of_months_lt {rate c : ℚ} {n₁ n₂ : ℕ}
    (hc : 0 < c) (hr : 0 < rate) (hn : n₁ < n₂) :
    fvAnnuityRaw c rate n₁ < fvAnnuityRaw c rate n₂ := by
  have hmr : 0 < monthlyRate rate := monthlyRate_pos hr
  have hp : (1 + monthlyRate rate) ^ n₁ < (1 + monthlyRate rate) ^ n₂ :=
    pow_lt_pow_right₀ (by linarith) hn
  unfold fvAnnuityRaw
  exact (div_lt_div_iff_of_pos_right hmr).mpr (mul_lt_mul_of_pos_left (by linarith) hc)

/-- The DCA state variable stays below the fully-compounded total
contribution: `dcaValue_m ≤ c * m * (1+r)^m` for `c, r ≥ 0`. -/
theorem dcaValueRec_le_lump {c r : ℚ} (hc : 0 ≤ c) (hr : 0 ≤ r) :
    ∀ m : ℕ, dcaValueRec c r m ≤ c * m * (1 + r) ^ m := by
  intro m
  induction m with
  | zero => simp [dcaValueRec]
  | succ k ih =>
      have h1r : (0 : ℚ) ≤ 1 + r := by linarith
      have hp : (1 : ℚ) ≤ (1 + r) ^ k := one_le_pow₀ (by linarith)
      have hck : c ≤ c * (1 + r) ^ k := le_mul_of_one_le_right hc hp
      simp only [dcaValueRec]
      push_cast
      calc (dcaValueRec c r k + c) * (1 + r)
          ≤ (c * k * (1 + r) ^ k + c * (1 + r) ^ k) * (1 + r) :=
            mul_le_mul_of_nonneg_right (by linarith) h1r
        _ = c * ((k : ℚ) + 1) * (1 + r) ^ (k + 1) := by ring

/-- The `generateDCAData` fold computes the closed-form state and series. -/
theorem dcaStep_foldl (c r : ℚ) (n : ℕ) :
    ∀ k : ℕ, (List.range (k + 1)).foldl (dcaStep c r) (0, c * n, []) =
      (dcaValueRec c r k, c * n * (1 + r) ^ k,
        (List.range (k + 1)).map (dcaPoint c r n)) := by
  intro k
  induction k with
  | zero =>
      simp [List.range_succ, List.range_zero, dcaStep, dcaValueRec, dcaPoint]
  | succ k ih =>
      have hk : 0 < k + 1 := Nat.succ_pos k
      rw [List.range_succ, List.foldl_append, ih, List.foldl_cons, List.foldl_nil]
      simp only [dcaStep, if_pos hk, List.map_append, List.map_cons, List.map_nil,
        Prod.mk.injEq]
      refine ⟨by simp [dcaValueRec], by ring, ?_⟩
      congr 1
      simp [dcaPoint, dcaValueRec, pow_succ, mul_assoc]

/-- `generateDCAData` equals the closed-form series. -/
theorem generateDCAData_eq_map (c r : ℚ) (n : ℕ) :
    generateDCAData c r n = (List.range (n + 1)).map (dcaPoint c r n) := by
  unfold generateDCAData
  rw [dcaStep_foldl]

/-- The series has `n + 1` points. -/
theorem generateDCAData_length (c r : ℚ) (n : ℕ) :
    (generateDCAData c r n).length = n + 1 := by
  rw [generateDCAData_eq_map]
  simp

/-- The first point of the series is the month-0 closed-form point. -/
theorem generateDCAData_headI (c r : ℚ) (n : ℕ) :
    (generateDCAData c r n).headI = dcaPoint c r n 0 := by
  rw [generateDCAData_eq_map, List.range_succ_eq_map]
  simp

/-- The last point of the series is the month-`n` closed-form point. -/
theorem generateDCAData_last (c r : ℚ) (n : ℕ) :
    (generateDCAData c r n).getD n default = dcaPoint c r n n := by
  rw [generateDCAData_eq_map]
  rw [List.getD_eq_getElem _ _ (by simp)]
  simp

/-! ### Claim theorems -/

/-- C1 counterexample: the projection at annual return 0 produces no
finite value (`0/0 = NaN` in the source), so `projectFutureValue 100 0 12`
is not `1200`. -/
theorem projection_zero_rate_not_1200 :
    projectFutureValue 100 0 12 = none ∧ projectFutureValue 100 0 12 ≠ some 1200 := by
  constructor <;> simp [projectFutureValue, monthlyRate]

/-- C1 (amended): the source does not special-case the zero rate — for
every monthly contribution `c` and horizon `n`, the projection at
`annualReturnPercent = 0` divides by the monthly rate `r = 0` and
produces NaN (no finite value, modelled `none`) rather than `c * n`. -/
theorem projection_zero_rate_no_finite_value (c : ℚ) (n : ℕ) :
    projectFutureValue c 0 n = none := by
  simp [projectFutureValue, monthlyRate]

/-- C2 counterexample: at rate 0 (allowed by the claim) the required
monthly contribution is 100 = 1200/12, but feeding it back into the
unguarded forward projection produces NaN, not the goal 1200. -/
theorem roundtrip_zero_rate_counterexample :
    calculateRequiredMonthly 1200 12 0 = 100 ∧
    projectFutureValue (calculateRequiredMonthly 1200 12 0) 0 12 = none := by
  constructor
  · norm_num [calculateRequiredMonthly]
  · simp [projectFutureValue, monthlyRate]

/-- C2 (amended): for every goal > 0, n ≥ 1 months and rate > 0, feeding
`calculateRequiredMonthly goal n rate` back into the projection yields the
goal back exactly before rounding, and the rounded projection output is
`round goal` — the required-monthly formula is the algebraic inverse of
the projection under the identical rate convention `r = rate/100/12`. -/
theorem requiredMonthly_projection_roundtrip (goal rate : ℚ) (n : ℕ)
    (hg : 0 < goal) (hr : 0 < rate) (hn : 1 ≤ n) :
    fvAnnuityRaw (calculateRequiredMonthly goal n rate) rate n = goal ∧
    projectFutureValue (calculateRequiredMonthly goal n rate) rate n = some (round goal) := by
  have hmr : 0 < monthlyRate rate := monthlyRate_pos hr
  have hA : 0 < (1 + monthlyRate rate) ^ n - 1 := by
    have := one_lt_pow₀ (by linarith : 1 < 1 + monthlyRate rate) (by omega : n ≠ 0)
    linarith
  have hmr0 : rate / 100 / 12 ≠ 0 := by
    have := hmr
    unfold monthlyRate at this
    exact ne_of_gt this
  have hreq : calculateRequiredMonthly goal n rate =
      goal * (rate / 100 / 12) / ((1 + rate / 100 / 12) ^ n - 1) := by
    simp only [calculateRequiredMonthly]
    rw [if_neg hmr0]
  have hA' : (1 + rate / 100 / 12) ^ n - 1 ≠ 0 := by
    have := hA
    unfold monthlyRate at this
    exact ne_of_gt this
  have hfv : fvAnnuityRaw (calculateRequiredMonthly goal n rate) rate n = goal := by
    rw [hreq]
    unfold fvAnnuityRaw monthlyRate
    rw [div_mul_cancel₀ _ hA', mul_div_cancel_right₀ _ hmr0]
  refine ⟨hfv, ?_⟩
  unfold projectFutureValue
  rw [if_neg (ne_of_gt hmr), hfv]

/-- C2 witness: the round trip at goal 1200, rate 12%, 12 months. -/
theorem requiredMonthly_projection_roundtrip_witness :
    fvAnnuityRaw (calculateRequiredMonthly 1200 12 12) 12 12 = 1200 ∧
    projectFutureValue (calculateRequiredMonthly 1200 12 12) 12 12 = some (round (1200 : ℚ)) :=
  requiredMonthly_projection_roundtrip 1200 12 12 (by decide) (by decide) (by decide)

/-- C3: the end-to-end medium/1-year scenario at a 50 monthly budget
returns the fixed medium template (VOO 50 / AAPL 25 / MSFT 15 / BND 10),
totalExpectedReturn 9.8, and projectedValue
`round (50 * ((1+0.098/12)^12 - 1) / (0.098/12)) = 628`. -/
theorem medium_one_year_end_to_end :
    generatePortfolioRecommendation ⟨50, "medium", "general-growth", "1-year"⟩ =
      { investments := [{ voo with allocation := 50 }, { aapl with allocation := 25 },
                        { msft with allocation := 15 }, { bnd with allocation := 10 }]
        totalExpectedReturn := 9.8
        riskScore := 4
        monthlyAmount := 50
        projectedValue := 628
        timeframe := "1-year" } ∧
    (628 : ℤ) = round ((50 : ℚ) * ((1 + 0.098 / 12) ^ (12 : ℕ) - 1) / (0.098 / 12)) := by
  have hround : round ((50 : ℚ) * ((1 + 0.098 / 12) ^ (12 : ℕ) - 1) / (0.098 / 12)) = 628 :=
    round_eq_of_bounds _ 628 (by norm_num) (by norm_num)
  have hfv : fvAnnuityRaw 50 9.8 12 =
      (50 : ℚ) * ((1 + 0.098 / 12) ^ (12 : ℕ) - 1) / (0.098 / 12) := by
    unfold fvAnnuityRaw monthlyRate
    norm_num
  refine ⟨?_, hround.symm⟩
  simp [generatePortfolioRecommendation, riskSwitch, totalMonths, hfv, hround]

/-- C4: for every risk-tolerance input (low, medium, high, and the
unrecognized-value fallback), the allocation percentages of the returned
portfolio sum to exactly 100. -/
theorem allocation_sums_to_100 (d : BudgetRiskData) :
    (((generatePortfolioRecommendation d).investments).map
        (fun i => i.allocation)).sum = 100 := by
  simp only [generatePortfolioRecommendation, riskSwitch]
  split_ifs <;> norm_num

/-- C5: under any nonnegative contribution, positive monthly rate and
horizon of at least one month, the final (month-`n`) lump-sum value in the
series produced by `generateDCAData` is at least the final DCA value. -/
theorem dca_final_lumpSum_ge_dca (c r : ℚ) (n : ℕ)
    (hc : 0 ≤ c) (hr : 0 < r) (hn : 1 ≤ n) :
    ((generateDCAData c r n).getD n default).dca ≤
      ((generateDCAData c r n).getD n default).lumpSum := by
  rw [generateDCAData_last]
  simp only [dcaPoint]
  exact round_mono_rat (dcaValueRec_le_lump hc (le_of_lt hr) n)

/-- C5 witness: contribution 100, monthly rate 1, horizon 12. -/
theorem dca_final_lumpSum_ge_dca_witness :
    ((generateDCAData 100 1 12).getD 12 default).dca ≤
      ((generateDCAData 100 1 12).getD 12 default).lumpSum :=
  dca_final_lumpSum_ge_dca 100 1 12 (by decide) (by decide) (by decide)

/-- C6 counterexample: after rounding, the projection is not strictly
increasing in the contribution — at annual rate 12 and horizon 12, the
contributions 1/100 and 2/100 both project to the rounded value 0. -/
theorem projection_rounding_not_strictly_monotone :
    (1 / 100 : ℚ) < 2 / 100 ∧
    projectFutureValue (1 / 100) 12 12 = projectFutureValue (2 / 100) 12 12 := by
  refine ⟨by norm_num, ?_⟩
  have h1 : projectFutureValue (1 / 100) 12 12 = some 0 := by
    unfold projectFutureValue monthlyRate fvAnnuityRaw monthlyRate
    rw [if_neg (by norm_num)]
    exact congrArg some (round_eq_of_bounds _ 0 (by norm_num) (by norm_num))
  have h2 : projectFutureValue (2 / 100) 12 12 = some 0 := by
    unfold projectFutureValue monthlyRate fvAnnuityRaw monthlyRate
    rw [if_neg (by norm_num)]
    exact congrArg some (round_eq_of_bounds _ 0 (by norm_num) (by norm_num))
  rw [h1, h2]

/-- C6 (amended): before rounding, the projected value is strictly
increasing in the monthly contribution (for fixed rate > 0 and horizon
≥ 1) and strictly increasing in the horizon (for fixed contribution > 0
and rate > 0); the rounded value is monotone (non-decreasing) in both. -/
theorem projection_monotone_before_rounding (rate c c₁ c₂ : ℚ) (n n₁ n₂ : ℕ)
    (hr : 0 < rate) (hn : 1 ≤ n) (hc : c₁ < c₂) (hcpos : 0 < c) (hnn : n₁ < n₂) :
    (fvAnnuityRaw c₁ rate n < fvAnnuityRaw c₂ rate n ∧
      round (fvAnnuityRaw c₁ rate n) ≤ round (fvAnnuityRaw c₂ rate n)) ∧
    (fvAnnuityRaw c rate n₁ < fvAnnuityRaw c rate n₂ ∧
      round (fvAnnuityRaw c rate n₁) ≤ round (fvAnnuityRaw c rate n₂)) := by
  have h1 := fvAnnuityRaw_lt_of_contribution_lt hr hn hc
  have h2 := fvAnnuityRaw_lt_of_months_lt hcpos hr hnn
  exact ⟨⟨h1, round_mono_rat h1.le⟩, ⟨h2, round_mono_rat h2.le⟩⟩

/-- C6 witness: both monotonicity conclusions at rate 12, contributions
1 < 2 (horizon 12) and horizons 6 < 12 (contribution 3). -/
theorem projection_monotone_before_rounding_witness :
    (fvAnnuityRaw 1 12 12 < fvAnnuityRaw 2 12 12 ∧
      round (fvAnnuityRaw 1 12 12) ≤ round (fvAnnuityRaw 2 12 12)) ∧
    (fvAnnuityRaw 3 12 6 < fvAnnuityRaw 3 12 12 ∧
      round (fvAnnuityRaw 3 12 6) ≤ round (fvAnnuityRaw 3 12 12)) :=
  projection_monotone_before_rounding 12 3 1 2 12 6 12 (by decide) (by decide)
    (by decide) (by decide) (by decide)

/-- C7 counterexample: the month-0 lump-sum value stored in the series is
the rounded `round (c * n)`, not `c * n` itself — at `c = 1/2`, `n = 3`
the stored value is 2 while `c * n = 3/2`. -/
theorem dca_month0_lumpSum_rounded_counterexample :
    ((generateDCAData (1 / 2) (1 / 100) 3).headI.lumpSum : ℚ) ≠ (1 / 2 : ℚ) * 3 := by
  have h1 : (generateDCAData (1 / 2 : ℚ) (1 / 100) 3).headI.lumpSum = 2 := by
    rw [generateDCAData_headI]
    have h2 : ((1 : ℚ) / 2) * ((3 : ℕ) : ℚ) * (1 + 1 / 100) ^ (0 : ℕ) = 3 / 2 := by norm_num
    simp only [dcaPoint, h2]
    exact round_eq_of_bounds (3 / 2) 2 (by norm_num) (by norm_num)
  rw [h1]
  norm_num

/-- C7 (amended): for every contribution, rate and horizon `n ≥ 0`,
`generateDCAData` returns exactly `n + 1` points, and the month-0 point
has dcaValue 0, cumulativeContributions 0, and stored lump-sum value
`round (c * n)` (the rounded initial lump sum, equal to `c * n` whenever
`c * n` is an integer). -/
theorem dca_series_length_and_month0 (c r : ℚ) (n : ℕ) :
    (generateDCAData c r n).length = n + 1 ∧
    (generateDCAData c r n).headI =
      { month := 0, dca := 0, lumpSum := round (c * n), contributions := 0 } := by
  refine ⟨generateDCAData_length c r n, ?_⟩
  rw [generateDCAData_headI]
  simp [dcaPoint, dcaValueRec]

/-- C8: no input is rejected — an unrecognized riskTolerance falls back to
the single-instrument 100% default with return 10.5 and risk score 3, and
an unrecognized timeHorizon label makes the projection use 12 months. -/
theorem fallback_defaults (d : BudgetRiskData) :
    (d.riskTolerance ∉ (["low", "medium", "high"] : List String) →
      (generatePortfolioRecommendation d).investments = [{ voo with allocation := 100 }] ∧
      (generatePortfolioRecommendation d).totalExpectedReturn = 10.5 ∧
      (generatePortfolioRecommendation d).riskScore = 3) ∧
    (d.timeHorizon ∉ (["3-months", "6-months", "1-year", "2-years", "5-years"] : List String) →
      totalMonths d.timeHorizon = 12 ∧
      (generatePortfolioRecommendation d).projectedValue =
        round (fvAnnuityRaw d.monthlyBudget
          (generatePortfolioRecommendation d).totalExpectedReturn 12)) := by
  constructor
  · intro h
    simp only [List.mem_cons, List.not_mem_nil, or_false, not_or] at h
    obtain ⟨hl, hm, hh⟩ := h
    simp [generatePortfolioRecommendation, riskSwitch, hl, hm, hh]
  · intro h
    simp only [List.mem_cons, List.not_mem_nil, or_false, not_or] at h
    obtain ⟨h3, h6, h12, h24, h60⟩ := h
    constructor
    · simp [totalMonths, h3, h6, h12, h24, h60]
    · simp [generatePortfolioRecommendation, totalMonths, h3, h6, h12, h24, h60]

/-- C8 witness: both fallbacks at the unrecognized labels "aggressive" and
"10-years". -/
theorem fallback_defaults_witness :
    ((generatePortfolioRecommendation ⟨25, "aggressive", "travel", "10-years"⟩).investments =
        [{ voo with allocation := 100 }] ∧
      (generatePortfolioRecommendation
          ⟨25, "aggressive", "travel", "10-years"⟩).totalExpectedReturn = 10.5 ∧
      (generatePortfolioRecommendation ⟨25, "aggressive", "travel", "10-years"⟩).riskScore = 3) ∧
    (totalMonths "10-years" = 12 ∧
      (generatePortfolioRecommendation ⟨25, "aggressive", "travel", "10-years"⟩).projectedValue =
        round (fvAnnuityRaw 25
          (generatePortfolioRecommendation
            ⟨25, "aggressive", "travel", "10-years"⟩).totalExpectedReturn 12)) :=
  ⟨(fallback_defaults ⟨25, "aggressive", "travel", "10-years"⟩).1 (by decide),
   (fallback_defaults ⟨25, "aggressive", "travel", "10-years"⟩).2 (by decide)⟩

/-- C9: for every input, the selected totalExpectedReturn is one of 7.8,
9.8, 12.1 or 10.5, the monthly rate derived from it is nonzero, and the
projection therefore produces a finite value — namely the projectedValue
the record carries (the unguarded zero-rate division is unreachable). -/
theorem monthlyReturn_never_zero (d : BudgetRiskData) :
    (generatePortfolioRecommendation d).totalExpectedReturn ∈
        ([7.8, 9.8, 12.1, 10.5] : List ℚ) ∧
      monthlyRate (generatePortfolioRecommendation d).totalExpectedReturn ≠ 0 ∧
      projectFutureValue d.monthlyBudget
          (generatePortfolioRecommendation d).totalExpectedReturn
          (totalMonths d.timeHorizon) =
        some ((generatePortfolioRecommendation d).projectedValue) := by
  obtain ⟨b, rt, g, th⟩ := d
  simp only [generatePortfolioRecommendation, riskSwitch]
  by_cases h1 : rt = "low"
  · simp [h1, projectFutureValue, monthlyRate]
    norm_num
  by_cases h2 : rt = "medium"
  · simp [h1, h2, projectFutureValue, monthlyRate]
    norm_num
  by_cases h3 : rt = "high"
  · simp [h1, h2, h3, projectFutureValue, monthlyRate]
    norm_num
  · simp [h1, h2, h3, projectFutureValue, monthlyRate]
    norm_num

/-- C10: `generatePortfolioRecommendation` never reads the investmentGoal
field — two inputs that agree on budget, risk tolerance and time horizon
produce identical outputs whatever their goals. -/
theorem investmentGoal_not_read (b : ℚ) (rt g₁ g₂ th : String) :
    generatePortfolioRecommendation ⟨b, rt, g₁, th⟩ =
      generatePortfolioRecommendation ⟨b, rt, g₂, th⟩ := rfl

end MicroInvest
